import Mathlib

/-!
Verification of the request-understanding and streaming-orchestration
subsystem of the travel-planning service.

Shallow embedding of:
  * `app/services/intent_detection_service.py` (keyword intent classifier),
  * `app/services/smart_streaming_service.py` (streaming orchestrator,
    date normalization of the parsed completion output, budget estimator),
  * `app/services/travel_parser_service.py` (return-date derivation),
  * `app/services/itinerary_service.py` (`_calculate_budget_estimate`).

External collaborators (the text-completion call, flight/hotel inventory
lookups) are modelled as inputs: the raw completion output and the data the
searchers return are parameters of the orchestration run.  Money and progress
values are rationals; Python `datetime` values are (day, second) pairs
compared lexicographically; fallible Python code is embedded with `Except`.
-/

namespace TravelCore

/-! ## Substring and word-boundary scanning

Python keyword tests are `keyword in text` (plain substring); the
multi-intent patterns are fixed regular expressions using `\b` word
boundaries, hand-compiled below. -/

/-- `pat` matches at the head of `s` (Python `text.startswith(pat)` at one
position); returns the remainder after the match. -/
def matchHere : List Char → List Char → Option (List Char)
  | [], s => some s
  | _ :: _, [] => none
  | c :: cs, d :: ds => if c = d then matchHere cs ds else none

/-- `pat` occurs somewhere in `s` (Python `pat in text`). -/
def occursIn (pat : List Char) : List Char → Bool
  | [] => (matchHere pat []).isSome
  | c :: cs => (matchHere pat (c :: cs)).isSome || occursIn pat cs

/-- Regex `\w`: ASCII letters, digits and underscore. -/
def isWordChar (c : Char) : Bool := c.isAlphanum || c = '_'

/-- A `\b` word boundary holds to the left of the current position when the
previous character (if any) is not a word character. -/
def leftBoundary (prev : Option Char) : Bool :=
  match prev with
  | none => true
  | some c => !(isWordChar c)

/-- A `\b` word boundary holds to the right when the next character (if any)
is not a word character. -/
def rightBoundary (s : List Char) : Bool :=
  match s with
  | [] => true
  | c :: _ => !(isWordChar c)

/-- `w` occurs in `s` starting at a `\b` boundary; when `needRight` it must
also end at a `\b` boundary.  `prev` is the character preceding `s`. -/
def scanBounded (needRight : Bool) (w : List Char) :
    Option Char → List Char → Bool
  | _, [] => false
  | prev, c :: cs =>
    (leftBoundary prev &&
      (match matchHere w (c :: cs) with
       | some rest => !needRight || rightBoundary rest
       | none => false))
    || scanBounded needRight w (some c) cs

/-- Regex `\band\b.*\b(flight|hotel|accommodation|things to do)`: a
whole-word `and` followed anywhere later by one of the alternatives opening
at a word boundary. -/
def multiPattern1 : Option Char → List Char → Bool
  | _, [] => false
  | prev, c :: cs =>
    (leftBoundary prev &&
      (match matchHere ['a', 'n', 'd'] (c :: cs) with
       | some rest =>
         rightBoundary rest &&
           (["flight", "hotel", "accommodation", "things to do"].any
             fun alt => scanBounded false alt.toList (some 'd') rest)
       | none => false))
    || multiPattern1 (some c) cs

/-- Regex `(flight|hotel).*\b(and|with|plus|including)\b`: a plain
`flight`/`hotel` substring followed anywhere later by a whole-word
conjunction. -/
def multiPattern2 : Option Char → List Char → Bool
  | _, [] => false
  | _prev, c :: cs =>
    (["flight", "hotel"].any fun w =>
      match matchHere w.toList (c :: cs) with
      | some rest =>
        ["and", "with", "plus", "including"].any fun alt =>
          scanBounded true alt.toList (w.toList.getLast? ) rest
      | none => false)
    || multiPattern2 (some c) cs

/-- Regex `complete|full|entire|whole|all`: plain substring alternation. -/
def multiPattern3 (s : List Char) : Bool :=
  ["complete", "full", "entire", "whole", "all"].any fun w =>
    occursIn w.toList s

/-- Regex `everything|package|comprehensive`: plain substring alternation. -/
def multiPattern4 (s : List Char) : Bool :=
  ["everything", "package", "comprehensive"].any fun w =>
    occursIn w.toList s

/-- `IntentDetectionService.multi_intent_patterns`: the query matches one of
the four multi-intent regular expressions. -/
def isMultiIntent (s : List Char) : Bool :=
  multiPattern1 none s || multiPattern2 none s ||
    multiPattern3 s || multiPattern4 s

/-! ## Keyword sets (`IntentDetectionService.__init__`) -/

def flight_keywords : List String :=
  ["flight", "flights", "fly", "flying", "airline", "airlines",
   "airfare", "plane", "ticket", "tickets", "book flight",
   "flight booking", "flight price", "flight cost", "cheapest flight"]

def hotel_keywords : List String :=
  ["hotel", "hotels", "accommodation", "stay", "lodging",
   "resort", "resorts", "motel", "hostel", "guesthouse",
   "where to stay", "book hotel", "hotel booking", "room", "rooms",
   "hotel price", "hotel cost", "cheapest hotel"]

def attraction_keywords : List String :=
  ["attraction", "attractions", "things to do", "places to visit",
   "tourist", "sightseeing", "activities", "what to do",
   "must see", "must visit", "landmarks", "monuments",
   "restaurants", "dining", "food", "eat", "cuisine"]

def itinerary_keywords : List String :=
  ["itinerary", "schedule", "plan", "day by day", "timeline",
   "agenda", "program", "route", "journey"]

def budget_keywords : List String :=
  ["budget", "cost", "price", "expense", "spend", "money",
   "how much", "affordable", "cheap", "expensive"]

def complete_trip_keywords : List String :=
  ["trip", "vacation", "holiday", "travel", "tour", "journey",
   "getaway", "weekend", "package", "complete", "full",
   "plan my trip", "travel planning", "help me plan"]

/-- `IntentDetectionService._count_keyword_matches`. -/
def count_keyword_matches (text : List Char) (keywords : List String) : Nat :=
  keywords.countP fun k => occursIn k.toList text

/-- Python `query.lower()` restricted to its effect on the characters the
keyword sets use (ASCII case folding). -/
def lowerChars (q : String) : List Char := q.toList.map Char.toLower

/-! ## Intent detection (`IntentDetectionService.detect_intent`) -/

/-- The `components` dict built by `detect_intent`. -/
structure Components where
  flights : Bool
  hotels : Bool
  attractions : Bool
  itinerary : Bool
  budget : Bool
  tips : Bool
  summary : Bool
deriving DecidableEq, Repr

/-- The `detected_keywords` dict returned by `detect_intent`. -/
structure KeywordCounts where
  flights : Nat
  hotels : Nat
  attractions : Nat
  itinerary : Nat
  budget : Nat
  complete : Nat
deriving DecidableEq, Repr

/-- The dict returned by `detect_intent`; `intent` holds the
`QueryIntent` enum value string. -/
structure IntentResult where
  intent : String
  components : Components
  confidence : ℚ
  detected_keywords : KeywordCounts
deriving DecidableEq, Repr

/-- Initial components dict: only `summary` true. -/
def baseComponents : Components :=
  ⟨false, false, false, false, false, false, true⟩

/-- Components dict assigned on the complete-trip branches. -/
def allComponents : Components :=
  ⟨true, true, true, true, true, true, true⟩

/-- `IntentDetectionService._calculate_confidence`.  The five
per-category counts are recomputed on the lowered query exactly as the
source does. -/
def calculate_confidence (q : List Char) (intent : Option String) : ℚ :=
  match intent with
  | none => 0
  | some i =>
    if i = "complete_trip" then
      if ["complete", "full", "entire", "package"].any
          (fun w => occursIn w.toList q) then 95/100 else 85/100
    else
      let fm := count_keyword_matches q flight_keywords
      let hm := count_keyword_matches q hotel_keywords
      let am := count_keyword_matches q attraction_keywords
      let im := count_keyword_matches q itinerary_keywords
      let bm := count_keyword_matches q budget_keywords
      let pick : Option Nat :=
        if i = "flight_only" then some fm
        else if i = "hotel_only" then some hm
        else if i = "attractions_only" then some am
        else if i = "itinerary_only" then some im
        else if i = "budget_only" then some bm
        else none
      match pick with
      | some intentCount =>
        let otherCounts := fm + hm + am + im + bm - intentCount
        if intentCount > 0 && otherCounts = 0 then 95/100
        else if intentCount > otherCounts then 85/100
        else 70/100
      | none => 75/100

/-- The branch chain of `detect_intent` selecting the intent label and the
components dict from the multi-intent flag and the keyword counts. -/
def determine_intent (is_multi_intent : Bool) (fm hm am im bm cm : Nat) :
    String × Components :=
  if is_multi_intent || cm > 0 then
    ("complete_trip", allComponents)
  else if fm > 0 ∧ hm = 0 ∧ am = 0 then
    ("flight_only", { baseComponents with flights := true })
  else if hm > 0 ∧ fm = 0 ∧ am = 0 then
    ("hotel_only", { baseComponents with hotels := true })
  else if am > 0 ∧ fm = 0 ∧ hm = 0 then
    ("attractions_only", { baseComponents with attractions := true })
  else if im > 1 ∧ fm = 0 ∧ hm = 0 then
    -- the source also includes attractions in the itinerary components
    ("itinerary_only",
      { baseComponents with itinerary := true, attractions := true })
  else if bm > 1 ∧ fm = 0 ∧ hm = 0 then
    ("budget_only", { baseComponents with budget := true })
  else
    let intent_count :=
      (if fm > 0 then 1 else 0) + (if hm > 0 then 1 else 0) +
      (if am > 0 then 1 else 0) + (if im > 0 then 1 else 0) +
      (if bm > 0 then 1 else 0)
    if intent_count ≥ 2 then
      ("complete_trip", allComponents)
    else if intent_count = 1 then
      let comps : Components :=
        { baseComponents with
          flights := fm > 0, hotels := hm > 0, attractions := am > 0,
          itinerary := im > 0, budget := bm > 0 }
      let intent :=
        if fm > 0 then "flight_only"
        else if hm > 0 then "hotel_only"
        else if am > 0 then "attractions_only"
        else if im > 0 then "itinerary_only"
        else "budget_only"
      (intent, comps)
    else
      ("complete_trip", allComponents)

/-- `IntentDetectionService.detect_intent`. -/
def detect_intent (query : String) : IntentResult :=
  let q := lowerChars query
  let fm := count_keyword_matches q flight_keywords
  let hm := count_keyword_matches q hotel_keywords
  let am := count_keyword_matches q attraction_keywords
  let im := count_keyword_matches q itinerary_keywords
  let bm := count_keyword_matches q budget_keywords
  let cm := count_keyword_matches q complete_trip_keywords
  let ic := determine_intent (isMultiIntent q) fm hm am im bm cm
  { intent := ic.1
    components := ic.2
    confidence := calculate_confidence q (some ic.1)
    detected_keywords := ⟨fm, hm, am, im, bm, cm⟩ }

/-- `IntentDetectionService.get_response_message`. -/
def get_response_message (intent : String) : String :=
  if intent = "flight_only" then "Searching for the best flight options..."
  else if intent = "hotel_only" then
    "Finding the perfect accommodations for your stay..."
  else if intent = "attractions_only" then
    "Discovering amazing things to do and places to visit..."
  else if intent = "itinerary_only" then
    "Creating your day-by-day travel itinerary..."
  else if intent = "budget_only" then
    "Calculating your travel budget and expenses..."
  else if intent = "complete_trip" then
    "Planning your complete travel experience..."
  else "Processing your travel request..."

/-! ## Dates

Python `datetime` values are modelled as a day number plus the seconds
elapsed within that day, ordered lexicographically.  `strptime` of a
`YYYY-MM-DD` string yields midnight of that day; `datetime.now()` has a
nonzero time-of-day component in general. -/

/-- A `datetime` value: calendar day and time within the day. -/
structure DT where
  day : Nat
  sec : Nat
deriving DecidableEq, Repr

/-- `datetime` comparison `a < b`. -/
def dtLt (a b : DT) : Bool :=
  a.day < b.day || (a.day = b.day && a.sec < b.sec)

/-- `datetime` comparison `a ≤ b`. -/
def dtLe (a b : DT) : Bool :=
  a.day < b.day || (a.day = b.day && a.sec ≤ b.sec)

/-- `t + timedelta(days = n)`. -/
def dtAddDays (a : DT) (n : Nat) : DT := ⟨a.day + n, a.sec⟩

/-- A date field of the completion output: either a string `strptime`
accepts (carrying its day number) or one it rejects. -/
inductive DateStr where
  | valid (day : Nat)
  | invalid
deriving DecidableEq, Repr

/-! ## Query parsing and normalization
(`SmartStreamingService._parse_travel_query_async`)

The OpenAI completion call is a collaborator; its JSON output is an input
here.  The embedding covers the date validation/repair applied to that
output. -/

/-- The raw completion output consumed by
`_parse_travel_query_async` (fields the core reads). -/
structure RawParse where
  origin : Option String
  departure_date : Option DateStr
  return_date : Option DateStr
  adults : Int
  budget_level : Option String
deriving DecidableEq, Repr

/-- The normalized parsed-travel dict. -/
structure ParsedTravel where
  origin : Option String
  departure_date : Nat
  return_date : Nat
  adults : Int
  budget_level : Option String
deriving DecidableEq, Repr

/-- Date validation and repair of `_parse_travel_query_async`, applied to
the raw completion output `r` at wall-clock time `now`. -/
def parse_travel_query_async (now : DT) (r : RawParse) : ParsedTravel :=
  let tomorrow := dtAddDays now 1
  -- departure: past or unparseable or absent dates are replaced by tomorrow
  let dep : DT :=
    match r.departure_date with
    | some (.valid d) => if dtLt ⟨d, 0⟩ now then tomorrow else ⟨d, 0⟩
    | some .invalid => tomorrow
    | none => tomorrow
  -- return: absent, unparseable, or not strictly after departure dates are
  -- recomputed as departure + 3 days
  let ret : Nat :=
    match r.return_date with
    | some (.valid rd) => if dtLe ⟨rd, 0⟩ dep then (dtAddDays dep 3).day else rd
    | some .invalid => (dtAddDays dep 3).day
    | none => (dtAddDays dep 3).day
  { origin := r.origin
    departure_date := dep.day
    return_date := ret
    adults := r.adults
    budget_level := r.budget_level }

/-- `SmartStreamingService._calculate_days` on the normalized dict, where
both date strings are always present and well-formed. -/
def calculate_days (departure_date return_date : Nat) : Int :=
  (return_date : Int) - departure_date + 1

/-- The missing-origin test of `stream_travel_plan`:
`not parsed_travel.get("origin") or origin == "Not specified" or origin == ""`. -/
def originMissing (origin : Option String) : Bool :=
  match origin with
  | none => true
  | some s => s = "" || s = "Not specified"

/-! ## Return-date derivation in `TravelParserService.parse_travel_query`
(lines 133-141): a return date is computed only when absent and
`duration_days > 1`; a present return date is kept unchanged. -/

/-- The fields of the parsed dict that the return-date derivation reads. -/
structure TPParsedInfo where
  departure_date : DateStr
  return_date : Option DateStr
  duration_days : Int
deriving DecidableEq, Repr

/-- `TravelParserService.parse_travel_query`, return-date derivation step. -/
def parse_travel_query_return_date (p : TPParsedInfo) : TPParsedInfo :=
  if p.return_date.isNone ∧ p.duration_days > 1 then
    match p.departure_date with
    | .valid d =>
      let rd := DateStr.valid (d + (p.duration_days - 1).toNat)
      { p with return_date := some rd }
    | .invalid => { p with return_date := none }
  else p

/-- The spec invariant "if return_date is present then
return_date > departure_date", as a decidable check on the parsed dict. -/
def tpReturnAfterDeparture (p : TPParsedInfo) : Bool :=
  match p.return_date, p.departure_date with
  | some (.valid rd), .valid dd => rd > dd
  | _, _ => true

/-! ## Budget estimation

Prices in the collaborator result records are modelled by `Price`:
`missing` (`dict.get` returns the default), `na` (the literal string
`"N/A"`), `num q` (a string `float()` accepts, already carrying its value;
`_calculate_budget_estimate` strips commas before converting), or
`malformed` (a non-`"N/A"` string `float()` rejects, which raises).
Fallible Python code is embedded in `Except Unit`; a `.error` value marks
the point at which the Python original would raise, and the `except` clause
of each estimator maps it to the fixed fallback result. -/

inductive Price where
  | missing
  | na
  | num (q : ℚ)
  | malformed
deriving DecidableEq, Repr

/-- A flight or hotel offer record, reduced to its `Total Price` field
(the only field the budget estimators read). -/
structure PriceRec where
  totalPrice : Price
deriving DecidableEq, Repr

/-- `float(rec.get('Total Price', default))`: the default is used when the
field is absent; a string `float()` rejects raises. -/
def floatOfPrice (p : Price) (dflt : ℚ) : Except Unit ℚ :=
  match p with
  | .missing => .ok dflt
  | .na => .error ()
  | .num q => .ok q
  | .malformed => .error ()

/-- The comprehension `[float(rec.get('Total Price', dflt)) for rec in l]`:
converts each price, raising at the first failing conversion. -/
def convertPrices (dflt : ℚ) : List PriceRec → Except Unit (List ℚ)
  | [] => .ok []
  | f :: fs =>
    match floatOfPrice f.totalPrice dflt, convertPrices dflt fs with
    | .ok q, .ok qs => .ok (q :: qs)
    | _, _ => .error ()

/-- The dict `_search_flights_async` returns: `{"outbound": .., "return": ..}`.
On a collaborator error both lists are empty; the dict itself is non-empty
and hence truthy in Python. -/
structure FlightResults where
  outbound : List PriceRec
  ret : List PriceRec
deriving DecidableEq, Repr

/-- The budget dict returned by
`SmartStreamingService._calculate_budget_async`. -/
structure BudgetOut where
  flights : ℚ
  accommodation : ℚ
  activities_food : ℚ
  local_transport : ℚ
  total : ℚ
  per_person : ℚ
deriving DecidableEq, Repr

/-- The fixed fallback estimate of `_calculate_budget_async`'s `except`
clause. -/
def budgetFallback : BudgetOut :=
  ⟨30000, 9000, 15000, 2000, 56000, 56000⟩

/-- The `try` body of `_calculate_budget_async`.  `flights`/`hotels` are
`None` exactly when the corresponding component was not requested.  Python
raises at `float()` on a malformed price and at `total / travelers` when
the traveler count is zero; those are the `.error` outcomes. -/
def calculate_budget_body (p : ParsedTravel) (flights : Option FlightResults)
    (hotels : Option (List PriceRec)) : Except Unit BudgetOut :=
  let days : Int := calculate_days p.departure_date p.return_date
  let travelers : Int := p.adults
  let flightCostE : Except Unit ℚ :=
    match flights with
    | some fr =>
      -- `if flights:` — the two-key dict is always truthy, so a failed
      -- flight search (both lists empty) still takes this branch
      match (match fr.outbound with
             | [] => Except.ok (0 : ℚ)
             | f :: _ => floatOfPrice f.totalPrice 15000),
            (match fr.ret with
             | [] => Except.ok (0 : ℚ)
             | f :: _ => floatOfPrice f.totalPrice 15000) with
      | .ok c1, .ok c2 => .ok (c1 + c2)
      | _, _ => .error ()
    | none => .ok 30000      -- default estimate
  let hotelCostE : Except Unit ℚ :=
    match hotels with
    | some hs =>
      if hs.isEmpty then .ok (3000 * ((days : ℚ) - 1))
      else
        match convertPrices 3000 (hs.take 3) with
        | .ok prices =>
          .ok (prices.sum / (min 3 hs.length : ℚ) * ((days : ℚ) - 1))
        | .error e => .error e
    | none => .ok (3000 * ((days : ℚ) - 1))
  match flightCostE, hotelCostE with
  | .ok flight_cost, .ok hotel_cost =>
    let food_per_day : ℚ := if p.budget_level ≠ some "budget" then 1500 else 800
    let activities_per_day : ℚ :=
      if p.budget_level ≠ some "budget" then 2000 else 1000
    let local_transport : ℚ := 500 * (days : ℚ)
    let activities_food : ℚ :=
      (food_per_day + activities_per_day) * (days : ℚ) * (travelers : ℚ)
    let total : ℚ :=
      flight_cost * (travelers : ℚ) + hotel_cost + activities_food +
        local_transport
    if travelers = 0 then .error ()
    else
      .ok { flights := flight_cost * (travelers : ℚ)
            accommodation := hotel_cost
            activities_food := activities_food
            local_transport := local_transport
            total := total
            per_person := total / (travelers : ℚ) }
  | _, _ => .error ()

/-- `SmartStreamingService._calculate_budget_async`: the `try` body with
its `except` clause returning the fixed fallback estimate. -/
def calculate_budget_async (p : ParsedTravel) (flights : Option FlightResults)
    (hotels : Option (List PriceRec)) : BudgetOut :=
  match calculate_budget_body p flights hotels with
  | .ok b => b
  | .error _ => budgetFallback

/-! ## `ItineraryService._calculate_budget_estimate` -/

/-- The fields of `flights_data` the estimator reads
(`outbound_flights` / `return_flights`, absent keys default to `[]`). -/
structure ItinFlightsData where
  outbound_flights : List PriceRec
  return_flights : List PriceRec
deriving DecidableEq, Repr

/-- The fields of `parsed_travel` the estimator reads. -/
structure ItinParsedTravel where
  travelers : Int
  duration_days : Int
  budget_preference : Option String
deriving DecidableEq, Repr

/-- The percentage breakdown of a successful estimate. -/
structure Breakdown where
  flights_percentage : ℚ
  accommodation_percentage : ℚ
  activities_food_percentage : ℚ
  transport_percentage : ℚ
deriving DecidableEq, Repr

/-- A successful `_calculate_budget_estimate` result. -/
structure BudgetEstimateOk where
  flights : ℚ
  accommodation : ℚ
  activities_food : ℚ
  local_transport : ℚ
  total : ℚ
  per_person : ℚ
  breakdown : Breakdown
deriving DecidableEq, Repr

/-- The result of `_calculate_budget_estimate`: the success dict (which
carries `breakdown` and `currency: INR`), or the `except`-clause fallback
dict `{'total': 0, 'currency': 'INR', 'error': ...}`, which carries no
breakdown field. -/
inductive BudgetEstimateResult where
  | ok (e : BudgetEstimateOk)
  | fallback
deriving DecidableEq, Repr

/-- The price filter of the list comprehensions:
`f.get('Total Price') and str(f['Total Price']) != 'N/A'`.  Prices are
string-valued in the collaborator records, so any present non-`"N/A"`
value is truthy and kept. -/
def priceKept (p : Price) : Bool :=
  match p with
  | .missing => false
  | .na => false
  | .num _ => true
  | .malformed => true

/-- `float(str(price).replace(',', ''))` on a kept price. -/
def floatOfKept (p : Price) : Except Unit ℚ :=
  match p with
  | .num q => .ok q
  | _ => .error ()

/-- `min(prices or [0])`. -/
def minOrZero (l : List ℚ) : ℚ :=
  match l with
  | [] => 0
  | x :: xs => xs.foldl min x

/-- The comprehension `[float(str(p).replace(',', '')) for f in l]` over
already-filtered records, raising at the first failing conversion. -/
def convertKeptPrices : List PriceRec → Except Unit (List ℚ)
  | [] => .ok []
  | f :: fs =>
    match floatOfKept f.totalPrice, convertKeptPrices fs with
    | .ok q, .ok qs => .ok (q :: qs)
    | _, _ => .error ()

/-- Cheapest kept price of a record list: the comprehension
`min([float(..) for f in l if kept] or [0])`; raises on a malformed kept
price. -/
def cheapestPrice (l : List PriceRec) : Except Unit ℚ :=
  match convertKeptPrices (l.filter fun f => priceKept f.totalPrice) with
  | .ok prices => .ok (minOrZero prices)
  | .error e => .error e

/-- The `try` body of `_calculate_budget_estimate`.  Python raises at
`float()` on malformed kept prices and at `total_cost / travelers` when
the traveler count is zero. -/
def calculate_budget_estimate_body (fd : ItinFlightsData)
    (hotels : List PriceRec) (pt : ItinParsedTravel) :
    Except Unit BudgetEstimateOk :=
  let travelers := pt.travelers
  let duration := pt.duration_days
  let outCostE : Except Unit ℚ :=
    if fd.outbound_flights.isEmpty then .ok 0
    else match cheapestPrice fd.outbound_flights with
         | .ok c => .ok (c * (travelers : ℚ))
         | .error e => .error e
  let retCostE : Except Unit ℚ :=
    if fd.return_flights.isEmpty then .ok 0
    else match cheapestPrice fd.return_flights with
         | .ok c => .ok (c * (travelers : ℚ))
         | .error e => .error e
  let hotelCostE : Except Unit ℚ :=
    if hotels.isEmpty then .ok 0
    else match cheapestPrice hotels with
         | .ok c => .ok (c * (duration : ℚ))
         | .error e => .error e
  match outCostE, retCostE, hotelCostE with
  | .ok c1, .ok c2, .ok hotel_cost =>
    let flight_cost := c1 + c2
    let daily : ℚ :=
      match pt.budget_preference with
      | some "budget" => 2000
      | some "moderate" => 4000
      | some "luxury" => 8000
      | some _ => 4000
      | none => 4000
    let activity_food_cost := daily * (travelers : ℚ) * (duration : ℚ)
    let transport_cost : ℚ := 500 * (travelers : ℚ) * (duration : ℚ)
    let total_cost :=
      flight_cost + hotel_cost + activity_food_cost + transport_cost
    if travelers = 0 then .error ()
    else
      .ok { flights := flight_cost
            accommodation := hotel_cost
            activities_food := activity_food_cost
            local_transport := transport_cost
            total := total_cost
            per_person := total_cost / (travelers : ℚ)
            breakdown :=
              { flights_percentage :=
                  if total_cost > 0 then flight_cost / total_cost * 100 else 0
                accommodation_percentage :=
                  if total_cost > 0 then hotel_cost / total_cost * 100 else 0
                activities_food_percentage :=
                  if total_cost > 0 then
                    activity_food_cost / total_cost * 100 else 0
                transport_percentage :=
                  if total_cost > 0 then
                    transport_cost / total_cost * 100 else 0 } }
  | _, _, _ => .error ()

/-- `ItineraryService._calculate_budget_estimate`: the `try` body with its
`except` clause returning the no-breakdown fallback dict. -/
def calculate_budget_estimate (fd : ItinFlightsData) (hotels : List PriceRec)
    (pt : ItinParsedTravel) : BudgetEstimateResult :=
  match calculate_budget_estimate_body fd hotels pt with
  | .ok e => .ok e
  | .error _ => .fallback

/-- The `total` field of a `_calculate_budget_estimate` result
(the fallback dict carries `'total': 0`). -/
def estimateTotal : BudgetEstimateResult → ℚ
  | .ok e => e.total
  | .fallback => 0

/-- The `currency` field (both the success and the fallback dict carry
`'currency': 'INR'`). -/
def estimateCurrency : BudgetEstimateResult → String
  | .ok _ => "INR"
  | .fallback => "INR"

/-- Whether a `_calculate_budget_estimate` result carries the
percentage-breakdown field (the fallback dict does not). -/
def estimateHasBreakdown : BudgetEstimateResult → Bool
  | .ok _ => true
  | .fallback => false

/-! ## The streaming orchestrator (`SmartStreamingService.stream_travel_plan`)

The generator is embedded as a function from the query and the
collaborator outcomes to the list of emitted events, in emission order.
Payload fields not needed for the verified properties (the summary data,
flight/hotel/attraction listings, tips) are elided from the events; the
`type`, `message`, `progress` and `needs_origin` fields, and the budget
payload, are kept. -/

/-- The `type` field of an emitted event. -/
inductive EvType where
  | intent | status | error | summary | flights | warning
  | hotels | attractions | itinerary | budget | tips | complete
deriving DecidableEq, Repr

/-- One emitted stream event.  `progress` is `none` when the Python dict
has no `progress` key (the parse-failure and missing-origin error events). -/
structure Event where
  ty : EvType
  message : String := ""
  progress : Option ℚ := none
  needs_origin : Bool := false
  budgetData : Option BudgetOut := none
deriving DecidableEq, Repr

/-- The collaborator outcomes of one orchestration run:
`parseResult` is the completion output consumed by
`_parse_travel_query_async` (`none` when that call fails and the method
returns `None`); `flightExc` is whether the flight-stage body (response
formatting) raises inside the stage's `try`; `flightOut` is the dict
`_search_flights_async` returns (empty lists when the flight collaborator
errored); `hotelOut` is the list `_search_hotels_async` returns. -/
structure RunEnv where
  parseResult : Option RawParse
  flightExc : Bool
  flightOut : FlightResults
  hotelOut : List PriceRec
deriving DecidableEq, Repr

/-- `total_components = sum(1 for v in components.values() if v and v != 'summary')`.
The guard compares each dict VALUE (a boolean) with the string
`'summary'`, which is always unequal, so every true flag is counted —
including `summary` itself (and `tips`). -/
def total_components (c : Components) : Nat :=
  [c.flights, c.hotels, c.attractions, c.itinerary, c.budget, c.tips,
   c.summary].countP id

/-- `progress_per_component = 70 / max(total_components, 1)`. -/
def progress_per_component (c : Components) : ℚ :=
  70 / (max (total_components c) 1 : ℚ)

/-- The status message of the query-parsing step. -/
def parseStatusMsg : String := "Understanding your requirements..."

/-- `SmartStreamingService.stream_travel_plan`: the sequence of events one
run emits, given the query and the collaborator outcomes. -/
def stream_travel_plan (query : String) (now : DT) (env : RunEnv) :
    List Event :=
  let intent_result := detect_intent query
  let components := intent_result.components
  let e1 : Event :=
    { ty := .intent, message := get_response_message intent_result.intent,
      progress := some 5 }
  let e2 : Event :=
    { ty := .status, message := parseStatusMsg, progress := some 10 }
  match env.parseResult with
  | none =>
    [e1, e2,
     { ty := .error,
       message := "Could not understand your travel request. Please be more specific." }]
  | some raw =>
    let parsed_travel := parse_travel_query_async now raw
    if originMissing parsed_travel.origin then
      [e1, e2,
       { ty := .error,
         message := "Please specify your departure city to search for flights.",
         needs_origin := true }]
    else
      let e3 : Event :=
        { ty := .status, message := "Preparing travel summary...",
          progress := some 15 }
      let e4 : Event := { ty := .summary, progress := some 20 }
      let ppc := progress_per_component components
      let cur0 : ℚ := 20
      let step1 : List Event × ℚ :=
        if components.flights then
          if env.flightExc then
            ([{ ty := .status,
                message := "Searching for best flight options...",
                progress := some (cur0 + 5) },
              { ty := .warning,
                message := "Flight search encountered issues. Continuing with other services...",
                progress := some cur0 }],
             cur0 + ppc)
          else
            ([{ ty := .status,
                message := "Searching for best flight options...",
                progress := some (cur0 + 5) },
              { ty := .flights, progress := some (cur0 + ppc) }],
             cur0 + ppc)
        else ([], cur0)
      let cur1 := step1.2
      let step2 : List Event × ℚ :=
        if components.hotels then
          ([{ ty := .status,
              message := "Finding perfect accommodations...",
              progress := some (cur1 + 5) },
            { ty := .hotels, progress := some (cur1 + ppc) }],
           cur1 + ppc)
        else ([], cur1)
      let cur2 := step2.2
      let step3 : List Event × ℚ :=
        if components.attractions then
          ([{ ty := .status,
              message := "Discovering amazing places to visit...",
              progress := some (cur2 + 5) },
            { ty := .attractions, progress := some (cur2 + ppc) }],
           cur2 + ppc)
        else ([], cur2)
      let cur3 := step3.2
      let step4 : List Event × ℚ :=
        if components.itinerary then
          ([{ ty := .status,
              message := "Creating your personalized itinerary...",
              progress := some (cur3 + 5) },
            { ty := .itinerary, progress := some (cur3 + ppc) }],
           cur3 + ppc)
        else ([], cur3)
      let cur4 := step4.2
      let step5 : List Event × ℚ :=
        if components.budget then
          let b := calculate_budget_async parsed_travel
            (if components.flights then some env.flightOut else none)
            (if components.hotels then some env.hotelOut else none)
          ([{ ty := .status,
              message := "Calculating travel budget...",
              progress := some (cur4 + 5) },
            { ty := .budget, progress := some (cur4 + ppc),
              budgetData := some b }],
           cur4 + ppc)
        else ([], cur4)
      let step6 : List Event :=
        if components.tips then
          [{ ty := .status,
             message := "Gathering helpful travel tips...",
             progress := some 90 },
           { ty := .tips, progress := some 95 }]
        else []
      [e1, e2, e3, e4] ++ step1.1 ++ step2.1 ++ step3.1 ++ step4.1 ++
        step5.1 ++ step6 ++ [{ ty := .complete, progress := some 100 }]

/-- The sequence of `progress` values a run emits, in order (events whose
dict has no `progress` key are skipped). -/
def progressValues (query : String) (now : DT) (env : RunEnv) : List ℚ :=
  (stream_travel_plan query now env).filterMap Event.progress

/-! ## Named component sets produced by `detect_intent` -/

def flightsOnlyComponents : Components :=
  { baseComponents with flights := true }

def hotelsOnlyComponents : Components :=
  { baseComponents with hotels := true }

def attractionsOnlyComponents : Components :=
  { baseComponents with attractions := true }

def itineraryAttractionsComponents : Components :=
  { baseComponents with itinerary := true, attractions := true }

def itineraryOnlyComponents : Components :=
  { baseComponents with itinerary := true }

def budgetOnlyComponents : Components :=
  { baseComponents with budget := true }

/-! ## Statement helpers -/

/-- The expected event-type trace of a successful run: the stage blocks in
the order the orchestrator emits them.  A requested flights stage
contributes a `warning` event instead of a `flights` event when its body
raises. -/
def expectedTypeTrace (c : Components) (flightExc : Bool) : List EvType :=
  [.intent, .status, .status, .summary] ++
    (if c.flights then
        [.status, if flightExc then .warning else .flights] else []) ++
    (if c.hotels then [.status, .hotels] else []) ++
    (if c.attractions then [.status, .attractions] else []) ++
    (if c.itinerary then [.status, .itinerary] else []) ++
    (if c.budget then [.status, .budget] else []) ++
    (if c.tips then [.status, .tips] else []) ++
    [.complete]

/-- "The query-parsing stage precedes the intent-classification stage": the
first event marking the parse step is emitted before the first `intent`
event (`List.findIdx` returns the list length when no event matches). -/
def parseBeforeIntent (evs : List Event) : Prop :=
  evs.findIdx (fun e => e.message == parseStatusMsg) <
    evs.findIdx (fun e => e.ty == .intent)

/-- The payload of the first `budget` event of a run, when present. -/
def budgetEventData (evs : List Event) : Option BudgetOut :=
  (evs.find? fun e =>
    match e.ty with | .budget => true | _ => false).bind Event.budgetData

/-! ## Concrete inputs used by witnesses and counterexamples -/

/-- A completion output with a valid origin and future dates. -/
def exRaw : RawParse :=
  { origin := some "Mumbai", departure_date := some (.valid 105),
    return_date := some (.valid 108), adults := 1,
    budget_level := some "standard" }

/-- A completion output with no origin field. -/
def exRawNoOrigin : RawParse :=
  { origin := none, departure_date := some (.valid 105),
    return_date := some (.valid 108), adults := 1,
    budget_level := some "standard" }

/-- A wall-clock instant: day 100, midnight. -/
def exNow : DT := ⟨100, 0⟩

/-- Collaborator outcomes: parse succeeds, no flight-stage exception, the
flight search returned the empty dict, the hotel search returned no
offers. -/
def envOK : RunEnv := ⟨some exRaw, false, ⟨[], []⟩, []⟩

/-- Collaborator outcomes: parse succeeds but the flight-stage body raises
(the run emits a `warning` event). -/
def envFlightExc : RunEnv := ⟨some exRaw, true, ⟨[], []⟩, []⟩

/-- Collaborator outcomes: parse succeeds with a missing origin. -/
def envNoOrigin : RunEnv := ⟨some exRawNoOrigin, false, ⟨[], []⟩, []⟩

/-- A parsed-travel dict with traveler count 0: `total / travelers` raises
inside `_calculate_budget_async`. -/
def c10exParsed : ParsedTravel := ⟨some "Mumbai", 105, 108, 0, some "standard"⟩

/-- An itinerary parsed-travel dict with traveler count 0. -/
def c10exPt : ItinParsedTravel := ⟨0, 3, some "moderate"⟩

/-- Flights data for the budget-estimate witness: one outbound offer at
4000. -/
def c8exFd : ItinFlightsData := ⟨[⟨.num 4000⟩], []⟩

/-- Hotels data for the budget-estimate witness: one offer at 500/night. -/
def c8exHotels : List PriceRec := [⟨.num 500⟩]

/-- Parsed travel for the budget-estimate witness: one traveler, two days,
budget tier. -/
def c8exPt : ItinParsedTravel := ⟨1, 2, some "budget"⟩

/-- The estimate `_calculate_budget_estimate` produces on the witness
inputs. -/
def c8exE : BudgetEstimateOk :=
  ⟨4000, 1000, 4000, 1000, 10000, 10000, ⟨40, 10, 40, 10⟩⟩

/-- The budget `_calculate_budget_async` produces when the flight search
returned the empty dict and the hotel search one 2000/night offer, for the
example parsed travel (4 days, 1 traveler). -/
def c9exBudget : BudgetOut := ⟨0, 6000, 14000, 2000, 22000, 22000⟩

/-- Collaborator outcomes: the flight collaborator errored (empty result
dict) while the hotel search succeeded with one offer. -/
def envHotels : RunEnv := ⟨some exRaw, false, ⟨[], []⟩, [⟨.num 2000⟩]⟩

/-! # Theorems -/

/-- The seven components sets the intent classifier can produce. -/
def componentChoices : List Components :=
  [allComponents, flightsOnlyComponents, hotelsOnlyComponents,
   attractionsOnlyComponents, itineraryAttractionsComponents,
   itineraryOnlyComponents, budgetOnlyComponents]

/-- Every branch of the intent-decision chain yields one of seven
components sets. -/
theorem determine_intent_components (mi : Bool) (fm hm am im bm cm : Nat) :
    (determine_intent mi fm hm am im bm cm).2 ∈ componentChoices := by
  unfold determine_intent
  simp only []
  by_cases h1 : (mi || decide (cm > 0)) = true
  · rw [if_pos h1]
    simp [componentChoices]
  · rw [if_neg h1]
    by_cases h2 : fm > 0 ∧ hm = 0 ∧ am = 0
    · rw [if_pos h2]
      simp [componentChoices, flightsOnlyComponents, baseComponents]
    · rw [if_neg h2]
      by_cases h3 : hm > 0 ∧ fm = 0 ∧ am = 0
      · rw [if_pos h3]
        simp [componentChoices, hotelsOnlyComponents, baseComponents]
      · rw [if_neg h3]
        by_cases h4 : am > 0 ∧ fm = 0 ∧ hm = 0
        · rw [if_pos h4]
          simp [componentChoices, attractionsOnlyComponents, baseComponents]
        · rw [if_neg h4]
          by_cases h5 : im > 1 ∧ fm = 0 ∧ hm = 0
          · rw [if_pos h5]
            simp [componentChoices, itineraryAttractionsComponents,
              baseComponents]
          · rw [if_neg h5]
            by_cases h6 : bm > 1 ∧ fm = 0 ∧ hm = 0
            · rw [if_pos h6]
              simp [componentChoices, budgetOnlyComponents, baseComponents]
            · rw [if_neg h6]
              by_cases h7 : ((if fm > 0 then 1 else 0) +
                  (if hm > 0 then 1 else 0) + (if am > 0 then 1 else 0) +
                  (if im > 0 then 1 else 0) +
                  (if bm > 0 then 1 else 0) : Nat) ≥ 2
              · rw [if_pos h7]
                simp [componentChoices]
              · rw [if_neg h7]
                by_cases h8 : ((if fm > 0 then 1 else 0) +
                    (if hm > 0 then 1 else 0) + (if am > 0 then 1 else 0) +
                    (if im > 0 then 1 else 0) +
                    (if bm > 0 then 1 else 0) : Nat) = 1
                · rw [if_pos h8]
                  by_cases hf : fm > 0 <;> by_cases hh : hm > 0 <;>
                    by_cases ha : am > 0 <;> by_cases hi : im > 0 <;>
                    by_cases hb : bm > 0 <;>
                    first
                      | omega
                      | simp_all [componentChoices, flightsOnlyComponents,
                          hotelsOnlyComponents, attractionsOnlyComponents,
                          itineraryOnlyComponents, budgetOnlyComponents,
                          itineraryAttractionsComponents, allComponents,
                          baseComponents]
                · rw [if_neg h8]
                  simp [componentChoices]

/-- The components of any classified query take one of seven values. -/
theorem detect_intent_components_cases (q : String) :
    (detect_intent q).components ∈ componentChoices :=
  determine_intent_components _ _ _ _ _ _ _

/-- C7: for every parsed query, an extracted departure date strictly before
the parse-time day is replaced by the day after the parse-time day, and
after normalization the departure date is never before the parse-time
day. -/
theorem c7_departure_never_past (now : DT) (r : RawParse) :
    now.day ≤ (parse_travel_query_async now r).departure_date ∧
    (∀ d, r.departure_date = some (.valid d) → d < now.day →
      (parse_travel_query_async now r).departure_date = now.day + 1) := by
  obtain ⟨o, dd, rdt, ad, bl⟩ := r
  rcases dd with _ | (d | _)
  · simp [parse_travel_query_async, dtAddDays]
  · constructor
    · simp only [parse_travel_query_async]
      by_cases h : dtLt ⟨d, 0⟩ now = true
      · simp [h, dtAddDays]
      · simp only [h, Bool.false_eq_true, reduceIte]
        simp [dtLt] at h
        omega
    · intro d2 hd2 hlt
      simp only at hd2
      have hdd : d = d2 := by
        injection hd2 with h2
        injection h2
      subst hdd
      have h : dtLt ⟨d, 0⟩ now = true := by
        simp [dtLt]
        omega
      simp only [parse_travel_query_async, h, if_true, dtAddDays]
  · simp [parse_travel_query_async, dtAddDays]

/-- C7 witness: a departure date of day 90, parsed on day 100, is replaced
by day 101. -/
theorem c7_departure_never_past_witness :
    (parse_travel_query_async exNow
      { exRaw with departure_date := some (.valid 90) }).departure_date =
        100 + 1 :=
  (c7_departure_never_past exNow
    { exRaw with departure_date := some (.valid 90) }).2 90 rfl
    (by decide)

/-- C6 counterexample: the `travel_parser_service` normalizer keeps a raw
return date equal to the departure date unchanged, so the claimed
invariant "return_date present implies return_date > departure_date" fails
on its output for the raw input with departure day 100, return day 100 and
duration 5. -/
theorem c6_counterexample :
    tpReturnAfterDeparture (parse_travel_query_return_date
      ⟨.valid 100, some (.valid 100), 5⟩) = false := by decide

/-- C6 amended: the streaming service's query parser always produces a
return date strictly after the departure date, recomputing it when the raw
value is absent, unparseable, or not after the departure; the
`travel_parser_service` normalizer guarantees the invariant only when the
raw return date is absent (deriving departure + duration − 1). -/
theorem c6_return_after_departure :
    (∀ (now : DT) (r : RawParse),
      (parse_travel_query_async now r).departure_date <
        (parse_travel_query_async now r).return_date) ∧
    (∀ p : TPParsedInfo, p.return_date = none →
      tpReturnAfterDeparture (parse_travel_query_return_date p) = true) := by
  constructor
  · intro now r
    obtain ⟨o, dd, rdt, ad, bl⟩ := r
    have step : ∀ dep : DT, dep.day <
        (match rdt with
         | some (.valid rd) =>
            if dtLe ⟨rd, 0⟩ dep = true then (dtAddDays dep 3).day else rd
         | some .invalid => (dtAddDays dep 3).day
         | none => (dtAddDays dep 3).day) := by
      intro dep
      rcases rdt with _ | (rd | _) <;> simp [dtAddDays]
      by_cases h : dtLe ⟨rd, 0⟩ dep = true <;> simp [h, dtAddDays] <;>
        simp [dtLe] at h <;> omega
    rcases dd with _ | (d | _) <;>
      simp only [parse_travel_query_async] <;>
      first
        | exact step _
        | (by_cases hd : dtLt ⟨d, 0⟩ now = true <;> simp only [hd] <;>
            first
              | exact step _
              | (simp only [Bool.false_eq_true, reduceIte]; exact step _))
  · intro p hret
    obtain ⟨dd, rdt, dur⟩ := p
    simp only at hret
    subst hret
    rcases dd with d | _ <;>
      by_cases hdur : dur > 1 <;>
      simp [parse_travel_query_return_date, hdur, tpReturnAfterDeparture] <;>
      omega

/-- C6 witness: the streaming parser output for the example input has
return day 108 after departure day 105, and the travel-parser normalizer
output for an absent raw return date with duration 5 satisfies the
invariant. -/
theorem c6_return_after_departure_witness :
    (parse_travel_query_async exNow exRaw).departure_date <
      (parse_travel_query_async exNow exRaw).return_date ∧
    tpReturnAfterDeparture (parse_travel_query_return_date
      ⟨.valid 100, none, 5⟩) = true :=
  ⟨c6_return_after_departure.1 exNow exRaw,
   c6_return_after_departure.2 ⟨.valid 100, none, 5⟩ rfl⟩

/-- C2: for every run whose parsed query has a missing or placeholder
origin, exactly one error event is emitted, it is the last event of the
run, it carries `needs_origin = true`, and no component-stage event
(flights, hotels, attractions, itinerary, budget, tips, summary, warning,
complete) is emitted in the run. -/
theorem c2_missing_origin_single_error (q : String) (now : DT) (env : RunEnv)
    (raw : RawParse) (hp : env.parseResult = some raw)
    (ho : originMissing (parse_travel_query_async now raw).origin = true) :
    (stream_travel_plan q now env).countP (fun e => e.ty == .error) = 1 ∧
    ((stream_travel_plan q now env).getLast?).map
      (fun e => e.ty == .error && e.needs_origin) = some true ∧
    (stream_travel_plan q now env).countP (fun e =>
      e.ty == .flights || e.ty == .hotels || e.ty == .attractions ||
      e.ty == .itinerary || e.ty == .budget || e.ty == .tips ||
      e.ty == .summary || e.ty == .complete || e.ty == .warning) = 0 := by
  unfold stream_travel_plan
  rw [hp]
  simp [ho, List.countP, List.countP.go]
  decide

/-- C2 witness: the missing-origin run for a complete-trip query emits the
single terminal error event and nothing after it. -/
theorem c2_missing_origin_single_error_witness :
    (stream_travel_plan "trip" exNow envNoOrigin).countP
      (fun e => e.ty == .error) = 1 ∧
    ((stream_travel_plan "trip" exNow envNoOrigin).getLast?).map
      (fun e => e.ty == .error && e.needs_origin) = some true ∧
    (stream_travel_plan "trip" exNow envNoOrigin).countP (fun e =>
      e.ty == .flights || e.ty == .hotels || e.ty == .attractions ||
      e.ty == .itinerary || e.ty == .budget || e.ty == .tips ||
      e.ty == .summary || e.ty == .complete || e.ty == .warning) = 0 :=
  c2_missing_origin_single_error "trip" exNow envNoOrigin exRawNoOrigin
    rfl (by decide)

/-- C3 counterexample: in the complete-trip run on query "trip" the
intent-classification event is emitted at index 0 and the query-parsing
status event at index 1, so the claimed "PARSE precedes INTENT" order is
false. -/
theorem c3_counterexample :
    ¬ parseBeforeIntent (stream_travel_plan "trip" exNow envOK) := by
  have h1 : (stream_travel_plan "trip" exNow envOK).findIdx
      (fun e => e.message == parseStatusMsg) = 1 := by decide
  have h2 : (stream_travel_plan "trip" exNow envOK).findIdx
      (fun e => e.ty == .intent) = 0 := by decide
  simp [parseBeforeIntent, h1, h2]

/-- C3 amended: every run that passes the parse and origin checks emits
its events in the fixed stage order INTENT, PARSE, SUMMARY, then the
requested bracketed components in the order flights, hotels, attractions,
itinerary, budget, tips, ending in COMPLETE (a failed flights stage
contributes a warning event in place of its flights event). -/
theorem c3_stage_order (q : String) (now : DT) (env : RunEnv)
    (raw : RawParse) (hp : env.parseResult = some raw)
    (ho : originMissing (parse_travel_query_async now raw).origin = false) :
    (stream_travel_plan q now env).map Event.ty =
      expectedTypeTrace (detect_intent q).components env.flightExc := by
  unfold stream_travel_plan expectedTypeTrace
  rw [hp]
  cases he : env.flightExc <;>
    cases h1 : (detect_intent q).components.flights <;>
    cases h2 : (detect_intent q).components.hotels <;>
    cases h3 : (detect_intent q).components.attractions <;>
    cases h4 : (detect_intent q).components.itinerary <;>
    cases h5 : (detect_intent q).components.budget <;>
    cases h6 : (detect_intent q).components.tips <;>
    simp [ho, h1, h2, h3, h4, h5, h6]

/-- C3 witness: the event-type trace of the full-trip run equals the expected
stage order. -/
theorem c3_stage_order_witness :
    (stream_travel_plan "trip" exNow envOK).map Event.ty =
      expectedTypeTrace (detect_intent "trip").components false :=
  c3_stage_order "trip" exNow envOK exRaw rfl (by decide)

/-- C4: the progress divisor `total_components` counts every true
components flag — the always-true `summary` flag included, because the
source filter `v != 'summary'` compares dict values, not keys — so a
flights-only run gets a 35-point step, not the claimed 70. -/
theorem c4_progress_divisor_counts_summary :
    total_components (detect_intent "flight").components = 2 ∧
    progress_per_component (detect_intent "flight").components = 35 ∧
    progress_per_component (detect_intent "flight").components ≠ 70 := by
  have h : (detect_intent "flight").components = flightsOnlyComponents := by
    decide
  rw [h]
  refine ⟨by decide, ?_, ?_⟩ <;>
    norm_num [progress_per_component, total_components, flightsOnlyComponents,
      baseComponents]

/-- C5 counterexample: the query "itinerary schedule" has keyword hits in
exactly one category (two itinerary hits, zero in the other four and in
the complete-trip set) and matches no multi-intent pattern, yet
`detect_intent` sets the attractions flag in addition to the itinerary
flag, so "only that category's flag is true" fails. -/
theorem c5_counterexample :
    count_keyword_matches (lowerChars "itinerary schedule")
      itinerary_keywords = 2 ∧
    count_keyword_matches (lowerChars "itinerary schedule")
      flight_keywords = 0 ∧
    count_keyword_matches (lowerChars "itinerary schedule")
      hotel_keywords = 0 ∧
    count_keyword_matches (lowerChars "itinerary schedule")
      attraction_keywords = 0 ∧
    count_keyword_matches (lowerChars "itinerary schedule")
      budget_keywords = 0 ∧
    count_keyword_matches (lowerChars "itinerary schedule")
      complete_trip_keywords = 0 ∧
    isMultiIntent (lowerChars "itinerary schedule") = false ∧
    (detect_intent "itinerary schedule").components.itinerary = true ∧
    (detect_intent "itinerary schedule").components.attractions = true := by
  decide

/-- C5 amended: for every query with keyword hits in exactly one of the
five categories and no multi-intent or complete-trip match, the single
matching component flag is set (besides the always-true summary flag) and
the confidence is at least 0.85 — except that an itinerary-only query with
two or more itinerary hits additionally sets the attractions flag. -/
theorem c5_single_category (q : String)
    (hmulti : isMultiIntent (lowerChars q) = false)
    (hcm : count_keyword_matches (lowerChars q) complete_trip_keywords = 0) :
    (0 < count_keyword_matches (lowerChars q) flight_keywords →
      count_keyword_matches (lowerChars q) hotel_keywords = 0 →
      count_keyword_matches (lowerChars q) attraction_keywords = 0 →
      count_keyword_matches (lowerChars q) itinerary_keywords = 0 →
      count_keyword_matches (lowerChars q) budget_keywords = 0 →
      (detect_intent q).components = flightsOnlyComponents ∧
        85/100 ≤ (detect_intent q).confidence) ∧
    (0 < count_keyword_matches (lowerChars q) hotel_keywords →
      count_keyword_matches (lowerChars q) flight_keywords = 0 →
      count_keyword_matches (lowerChars q) attraction_keywords = 0 →
      count_keyword_matches (lowerChars q) itinerary_keywords = 0 →
      count_keyword_matches (lowerChars q) budget_keywords = 0 →
      (detect_intent q).components = hotelsOnlyComponents ∧
        85/100 ≤ (detect_intent q).confidence) ∧
    (0 < count_keyword_matches (lowerChars q) attraction_keywords →
      count_keyword_matches (lowerChars q) flight_keywords = 0 →
      count_keyword_matches (lowerChars q) hotel_keywords = 0 →
      count_keyword_matches (lowerChars q) itinerary_keywords = 0 →
      count_keyword_matches (lowerChars q) budget_keywords = 0 →
      (detect_intent q).components = attractionsOnlyComponents ∧
        85/100 ≤ (detect_intent q).confidence) ∧
    (0 < count_keyword_matches (lowerChars q) itinerary_keywords →
      count_keyword_matches (lowerChars q) flight_keywords = 0 →
      count_keyword_matches (lowerChars q) hotel_keywords = 0 →
      count_keyword_matches (lowerChars q) attraction_keywords = 0 →
      count_keyword_matches (lowerChars q) budget_keywords = 0 →
      (detect_intent q).components =
        (if 1 < count_keyword_matches (lowerChars q) itinerary_keywords then
          itineraryAttractionsComponents else itineraryOnlyComponents) ∧
        85/100 ≤ (detect_intent q).confidence) ∧
    (0 < count_keyword_matches (lowerChars q) budget_keywords →
      count_keyword_matches (lowerChars q) flight_keywords = 0 →
      count_keyword_matches (lowerChars q) hotel_keywords = 0 →
      count_keyword_matches (lowerChars q) attraction_keywords = 0 →
      count_keyword_matches (lowerChars q) itinerary_keywords = 0 →
      (detect_intent q).components = budgetOnlyComponents ∧
        85/100 ≤ (detect_intent q).confidence) := by
  set L := lowerChars q with hL
  set fm := count_keyword_matches L flight_keywords with hfm
  set hm := count_keyword_matches L hotel_keywords with hhm
  set am := count_keyword_matches L attraction_keywords with ham
  set im := count_keyword_matches L itinerary_keywords with him
  set bm := count_keyword_matches L budget_keywords with hbm
  set cm := count_keyword_matches L complete_trip_keywords with hcmv
  have hcomp : (detect_intent q).components =
      (determine_intent (isMultiIntent L) fm hm am im bm cm).2 := rfl
  have hint : (detect_intent q).confidence =
      calculate_confidence L
        (some (determine_intent (isMultiIntent L) fm hm am im bm cm).1) := rfl
  rw [hmulti] at hcomp hint
  refine ⟨?_, ?_, ?_, ?_, ?_⟩ <;> intro hpos h1 h2 h3 h4
  · -- flights only
    rw [h1, h2, h3, h4, hcm] at hcomp hint
    have hd : determine_intent false fm 0 0 0 0 0 =
        ("flight_only", flightsOnlyComponents) := by
      unfold determine_intent
      simp [hpos, flightsOnlyComponents, baseComponents]
    rw [hd] at hcomp hint
    refine ⟨hcomp, ?_⟩
    rw [hint]
    unfold calculate_confidence
    rw [← hfm, ← hhm, ← ham, ← him, ← hbm]
    simp only [String.reduceEq, reduceIte]
    norm_num [h1, h2, h3, h4, hpos, Nat.pos_iff_ne_zero]
  · -- hotels only
    rw [h1, h2, h3, h4, hcm] at hcomp hint
    have hd : determine_intent false 0 hm 0 0 0 0 =
        ("hotel_only", hotelsOnlyComponents) := by
      unfold determine_intent
      simp [hpos, hotelsOnlyComponents, baseComponents]
    rw [hd] at hcomp hint
    refine ⟨hcomp, ?_⟩
    rw [hint]
    unfold calculate_confidence
    rw [← hfm, ← hhm, ← ham, ← him, ← hbm]
    simp only [String.reduceEq, reduceIte]
    norm_num [h1, h2, h3, h4, hpos, Nat.pos_iff_ne_zero]
  · -- attractions only
    rw [h1, h2, h3, h4, hcm] at hcomp hint
    have hd : determine_intent false 0 0 am 0 0 0 =
        ("attractions_only", attractionsOnlyComponents) := by
      unfold determine_intent
      simp [hpos, attractionsOnlyComponents, baseComponents]
    rw [hd] at hcomp hint
    refine ⟨hcomp, ?_⟩
    rw [hint]
    unfold calculate_confidence
    rw [← hfm, ← hhm, ← ham, ← him, ← hbm]
    simp only [String.reduceEq, reduceIte]
    norm_num [h1, h2, h3, h4, hpos, Nat.pos_iff_ne_zero]
  · -- itinerary only
    rw [h1, h2, h3, h4, hcm] at hcomp hint
    by_cases h2i : 1 < im
    · have hd : determine_intent false 0 0 0 im 0 0 =
          ("itinerary_only", itineraryAttractionsComponents) := by
        unfold determine_intent
        simp [h2i, itineraryAttractionsComponents, baseComponents]
      rw [hd] at hcomp hint
      refine ⟨by rw [hcomp, if_pos h2i], ?_⟩
      rw [hint]
      unfold calculate_confidence
      rw [← hfm, ← hhm, ← ham, ← him, ← hbm]
      simp only [String.reduceEq, reduceIte]
      norm_num [h1, h2, h3, h4, hpos, Nat.pos_iff_ne_zero]
    · have hd : determine_intent false 0 0 0 im 0 0 =
          ("itinerary_only", itineraryOnlyComponents) := by
        unfold determine_intent
        simp [h2i, hpos, itineraryOnlyComponents, baseComponents]
      rw [hd] at hcomp hint
      refine ⟨by rw [hcomp, if_neg h2i], ?_⟩
      rw [hint]
      unfold calculate_confidence
      rw [← hfm, ← hhm, ← ham, ← him, ← hbm]
      simp only [String.reduceEq, reduceIte]
      norm_num [h1, h2, h3, h4, hpos, Nat.pos_iff_ne_zero]
  · -- budget only
    rw [h1, h2, h3, h4, hcm] at hcomp hint
    by_cases h2b : 1 < bm
    · have hd : determine_intent false 0 0 0 0 bm 0 =
          ("budget_only", budgetOnlyComponents) := by
        unfold determine_intent
        simp [h2b, budgetOnlyComponents, baseComponents]
      rw [hd] at hcomp hint
      refine ⟨hcomp, ?_⟩
      rw [hint]
      unfold calculate_confidence
      rw [← hfm, ← hhm, ← ham, ← him, ← hbm]
      simp only [String.reduceEq, reduceIte]
      norm_num [h1, h2, h3, h4, hpos, Nat.pos_iff_ne_zero]
    · have hd : determine_intent false 0 0 0 0 bm 0 =
          ("budget_only", budgetOnlyComponents) := by
        unfold determine_intent
        simp [h2b, hpos, budgetOnlyComponents, baseComponents]
      rw [hd] at hcomp hint
      refine ⟨hcomp, ?_⟩
      rw [hint]
      unfold calculate_confidence
      rw [← hfm, ← hhm, ← ham, ← him, ← hbm]
      simp only [String.reduceEq, reduceIte]
      norm_num [h1, h2, h3, h4, hpos, Nat.pos_iff_ne_zero]

/-- C5 witness: the flights-only query "flight" yields the flights-only
components with confidence at least 0.85. -/
theorem c5_single_category_witness :
    (detect_intent "flight").components = flightsOnlyComponents ∧
      85/100 ≤ (detect_intent "flight").confidence :=
  (c5_single_category "flight" (by decide) (by decide)).1
    (by decide) (by decide) (by decide) (by decide) (by decide)

/-- Helper: four category shares of a nonzero total, each expressed as a
percentage, sum to exactly 100. -/
theorem pct_sum (a b c d : ℚ) (h : a + b + c + d ≠ 0) :
    a/(a+b+c+d)*100 + b/(a+b+c+d)*100 + c/(a+b+c+d)*100 +
      d/(a+b+c+d)*100 = 100 := by
  field_simp
  ring

/-- C8: every successful budget estimate has breakdown percentages that
sum to 100 (within the 0.01 tolerance; the sum is exact here) when the
total is positive, and all-zero percentages when the total is zero. -/
theorem c8_breakdown_percentages (fd : ItinFlightsData)
    (hotels : List PriceRec) (pt : ItinParsedTravel) (e : BudgetEstimateOk)
    (h : calculate_budget_estimate_body fd hotels pt = .ok e) :
    (0 < e.total →
      |e.breakdown.flights_percentage +
        e.breakdown.accommodation_percentage +
        e.breakdown.activities_food_percentage +
        e.breakdown.transport_percentage - 100| ≤ 1/100) ∧
    (e.total = 0 →
      e.breakdown.flights_percentage = 0 ∧
      e.breakdown.accommodation_percentage = 0 ∧
      e.breakdown.activities_food_percentage = 0 ∧
      e.breakdown.transport_percentage = 0) := by
  unfold calculate_budget_estimate_body at h
  simp only [] at h
  split at h
  case _ c1 c2 hc _ _ _ =>
    split at h
    · simp at h
    · rw [Except.ok.injEq] at h
      subst h
      constructor
      · intro hpos
        simp only at hpos ⊢
        rw [if_pos hpos, if_pos hpos, if_pos hpos, if_pos hpos,
          pct_sum _ _ _ _ (ne_of_gt hpos)]
        norm_num
      · intro h0
        simp only at h0 ⊢
        simp [h0]
  case _ => simp at h

/-- C8 witness: a concrete estimate with total 10000 and percentages
40 + 10 + 40 + 10 = 100. -/
theorem c8_breakdown_percentages_witness :
    calculate_budget_estimate_body c8exFd c8exHotels c8exPt = .ok c8exE ∧
    0 < c8exE.total ∧
    |c8exE.breakdown.flights_percentage +
      c8exE.breakdown.accommodation_percentage +
      c8exE.breakdown.activities_food_percentage +
      c8exE.breakdown.transport_percentage - 100| ≤ 1/100 :=
  ⟨by norm_num [calculate_budget_estimate_body, cheapestPrice,
      convertKeptPrices, minOrZero, floatOfKept, priceKept, c8exFd,
      c8exHotels, c8exPt, c8exE],
   by norm_num [c8exE],
   (c8_breakdown_percentages c8exFd c8exHotels c8exPt c8exE
      (by norm_num [calculate_budget_estimate_body, cheapestPrice,
        convertKeptPrices, minOrZero, floatOfKept, priceKept, c8exFd,
        c8exHotels, c8exPt, c8exE])).1 (by norm_num [c8exE])⟩

/-- C10: both budget estimators are total at their boundary: whenever the
try-body raises, `_calculate_budget_async` returns the fixed estimate with
total 56000, and `_calculate_budget_estimate` returns the INR fallback
dict with total 0 that carries no percentage breakdown. -/
theorem c10_budget_totality :
    (∀ (p : ParsedTravel) (flights : Option FlightResults)
        (hotels : Option (List PriceRec)),
      calculate_budget_body p flights hotels = .error () →
      calculate_budget_async p flights hotels = budgetFallback ∧
      (calculate_budget_async p flights hotels).total = 56000) ∧
    (∀ (fd : ItinFlightsData) (hotels : List PriceRec)
        (pt : ItinParsedTravel),
      calculate_budget_estimate_body fd hotels pt = .error () →
      calculate_budget_estimate fd hotels pt = .fallback ∧
      estimateTotal (calculate_budget_estimate fd hotels pt) = 0 ∧
      estimateCurrency (calculate_budget_estimate fd hotels pt) = "INR" ∧
      estimateHasBreakdown (calculate_budget_estimate fd hotels pt) =
        false) := by
  constructor
  · intro p flights hotels h
    unfold calculate_budget_async
    rw [h]
    exact ⟨rfl, rfl⟩
  · intro fd hotels pt h
    unfold calculate_budget_estimate
    rw [h]
    exact ⟨rfl, rfl, rfl, rfl⟩

/-- C10 witness: a zero traveler count makes both try-bodies raise, and
the wrappers return the documented fallbacks. -/
theorem c10_budget_totality_witness :
    calculate_budget_body c10exParsed none none = .error () ∧
    calculate_budget_async c10exParsed none none = budgetFallback ∧
    calculate_budget_estimate_body ⟨[], []⟩ [] c10exPt = .error () ∧
    calculate_budget_estimate ⟨[], []⟩ [] c10exPt = .fallback ∧
    estimateHasBreakdown (calculate_budget_estimate ⟨[], []⟩ [] c10exPt) =
      false :=
  ⟨rfl, (c10_budget_totality.1 c10exParsed none none rfl).1, rfl,
   (c10_budget_totality.2 ⟨[], []⟩ [] c10exPt rfl).1,
   (c10_budget_totality.2 ⟨[], []⟩ [] c10exPt rfl).2.2.2⟩


/-- C1 counterexample: in the run on query "flight" with a failing flight
stage, the progress sequence is 5, 10, 15, 20, 25, 20, 100 — the warning
event drops progress from 25 back to 20 — and in the run on query
"itinerary schedule" the sixth progress value is 130/3, which is not an
integer.  Both defects falsify the claim as stated. -/
theorem c1_counterexample :
    ¬ List.Chain' (· ≤ ·) (progressValues "flight" exNow envFlightExc) ∧
    (progressValues "itinerary schedule" exNow envOK).get? 5 =
      some ((130 : ℚ)/3) ∧
    ¬ (∃ n : ℤ, ((130 : ℚ)/3) = (n : ℚ)) := by
  have hc1 : (detect_intent "flight").components = flightsOnlyComponents := by
    decide
  have hc2 : (detect_intent "itinerary schedule").components =
      itineraryAttractionsComponents := by decide
  have ho : originMissing (parse_travel_query_async exNow exRaw).origin =
      false := by decide
  have hl1 : progressValues "flight" exNow envFlightExc =
      ([5, 10, 15, 20, 25, 20, 100] : List ℚ) := by
    norm_num [progressValues, stream_travel_plan, envFlightExc, ho, hc1,
      flightsOnlyComponents, baseComponents, progress_per_component,
      total_components, List.countP_cons, List.countP_nil,
      List.filterMap_cons, List.filterMap_nil]
  have hl2 : progressValues "itinerary schedule" exNow envOK =
      ([5, 10, 15, 20, 25, (130:ℚ)/3, (145:ℚ)/3, (200:ℚ)/3, 100] :
        List ℚ) := by
    norm_num [progressValues, stream_travel_plan, envOK, ho, hc2,
      itineraryAttractionsComponents, baseComponents,
      progress_per_component, total_components, List.countP_cons,
      List.countP_nil, List.filterMap_cons, List.filterMap_nil]
  refine ⟨?_, ?_, ?_⟩
  · rw [hl1]
    intro hch
    norm_num [List.chain'_cons] at hch
  · rw [hl2]
    rfl
  · rintro ⟨n, hn⟩
    have h3 : (130 : ℚ) = 3 * (n : ℚ) := by
      field_simp at hn
      linarith
    have h4 : (130 : ℤ) = 3 * n := by exact_mod_cast h3
    omega

/-- C1 amended: progress values of every run are rationals within 0 and
100 (not necessarily integers), and in every run whose flights stage does
not raise (no warning event) they are monotonically non-decreasing. -/
theorem c1_progress_bounds (q : String) (now : DT) (env : RunEnv) :
    (∀ p ∈ progressValues q now env, 0 ≤ p ∧ p ≤ 100) ∧
    (env.flightExc = false →
      List.Chain' (· ≤ ·) (progressValues q now env)) := by
  obtain ⟨pr, fexc, fout, hout⟩ := env
  rcases pr with _ | raw
  · refine ⟨?_, ?_⟩
    · intro p hp
      simp [progressValues, stream_travel_plan] at hp
      rcases hp with rfl | rfl <;> norm_num
    · intro _
      simp [progressValues, stream_travel_plan]
      norm_num [List.chain'_cons]
  · by_cases ho : originMissing (parse_travel_query_async now raw).origin = true
    · refine ⟨?_, ?_⟩
      · intro p hp
        simp [progressValues, stream_travel_plan, ho] at hp
        rcases hp with rfl | rfl <;> norm_num
      · intro _
        simp [progressValues, stream_travel_plan, ho]
        norm_num [List.chain'_cons]
    · have hcc := detect_intent_components_cases q
      simp only [componentChoices, List.mem_cons, List.not_mem_nil,
        or_false] at hcc
      rcases hcc with h | h | h | h | h | h | h
      · cases fexc
        · have hl : progressValues q now ⟨some raw, false, fout, hout⟩ =
              ([5,10,15,20,25,30,35,40,45,50,55,60,65,70,90,95,100] : List ℚ) := by
            norm_num [progressValues, stream_travel_plan, ho, h, allComponents, flightsOnlyComponents, hotelsOnlyComponents, attractionsOnlyComponents, itineraryAttractionsComponents, itineraryOnlyComponents, budgetOnlyComponents, baseComponents, progress_per_component, total_components, List.countP_cons, List.countP_nil, List.filterMap_cons, List.filterMap_nil]
          refine ⟨?_, ?_⟩
          · intro p hp
            rw [hl] at hp
            fin_cases hp <;> norm_num
          · intro _
            rw [hl]
            norm_num [List.chain'_cons]
        · have hl : progressValues q now ⟨some raw, true, fout, hout⟩ =
              ([5,10,15,20,25,20,35,40,45,50,55,60,65,70,90,95,100] : List ℚ) := by
            norm_num [progressValues, stream_travel_plan, ho, h, allComponents, flightsOnlyComponents, hotelsOnlyComponents, attractionsOnlyComponents, itineraryAttractionsComponents, itineraryOnlyComponents, budgetOnlyComponents, baseComponents, progress_per_component, total_components, List.countP_cons, List.countP_nil, List.filterMap_cons, List.filterMap_nil]
          refine ⟨?_, ?_⟩
          · intro p hp
            rw [hl] at hp
            fin_cases hp <;> norm_num
          · intro hfe
            simp at hfe
      · cases fexc
        · have hl : progressValues q now ⟨some raw, false, fout, hout⟩ =
              ([5,10,15,20,25,55,100] : List ℚ) := by
            norm_num [progressValues, stream_travel_plan, ho, h, allComponents, flightsOnlyComponents, hotelsOnlyComponents, attractionsOnlyComponents, itineraryAttractionsComponents, itineraryOnlyComponents, budgetOnlyComponents, baseComponents, progress_per_component, total_components, List.countP_cons, List.countP_nil, List.filterMap_cons, List.filterMap_nil]
          refine ⟨?_, ?_⟩
          · intro p hp
            rw [hl] at hp
            fin_cases hp <;> norm_num
          · intro _
            rw [hl]
            norm_num [List.chain'_cons]
        · have hl : progressValues q now ⟨some raw, true, fout, hout⟩ =
              ([5,10,15,20,25,20,100] : List ℚ) := by
            norm_num [progressValues, stream_travel_plan, ho, h, allComponents, flightsOnlyComponents, hotelsOnlyComponents, attractionsOnlyComponents, itineraryAttractionsComponents, itineraryOnlyComponents, budgetOnlyComponents, baseComponents, progress_per_component, total_components, List.countP_cons, List.countP_nil, List.filterMap_cons, List.filterMap_nil]
          refine ⟨?_, ?_⟩
          · intro p hp
            rw [hl] at hp
            fin_cases hp <;> norm_num
          · intro hfe
            simp at hfe
      · cases fexc
        · have hl : progressValues q now ⟨some raw, false, fout, hout⟩ =
              ([5,10,15,20,25,55,100] : List ℚ) := by
            norm_num [progressValues, stream_travel_plan, ho, h, allComponents, flightsOnlyComponents, hotelsOnlyComponents, attractionsOnlyComponents, itineraryAttractionsComponents, itineraryOnlyComponents, budgetOnlyComponents, baseComponents, progress_per_component, total_components, List.countP_cons, List.countP_nil, List.filterMap_cons, List.filterMap_nil]
          refine ⟨?_, ?_⟩
          · intro p hp
            rw [hl] at hp
            fin_cases hp <;> norm_num
          · intro _
            rw [hl]
            norm_num [List.chain'_cons]
        · have hl : progressValues q now ⟨some raw, true, fout, hout⟩ =
              ([5,10,15,20,25,55,100] : List ℚ) := by
            norm_num [progressValues, stream_travel_plan, ho, h, allComponents, flightsOnlyComponents, hotelsOnlyComponents, attractionsOnlyComponents, itineraryAttractionsComponents, itineraryOnlyComponents, budgetOnlyComponents, baseComponents, progress_per_component, total_components, List.countP_cons, List.countP_nil, List.filterMap_cons, List.filterMap_nil]
          refine ⟨?_, ?_⟩
          · intro p hp
            rw [hl] at hp
            fin_cases hp <;> norm_num
          · intro hfe
            simp at hfe
      · cases fexc
        · have hl : progressValues q now ⟨some raw, false, fout, hout⟩ =
              ([5,10,15,20,25,55,100] : List ℚ) := by
            norm_num [progressValues, stream_travel_plan, ho, h, allComponents, flightsOnlyComponents, hotelsOnlyComponents, attractionsOnlyComponents, itineraryAttractionsComponents, itineraryOnlyComponents, budgetOnlyComponents, baseComponents, progress_per_component, total_components, List.countP_cons, List.countP_nil, List.filterMap_cons, List.filterMap_nil]
          refine ⟨?_, ?_⟩
          · intro p hp
            rw [hl] at hp
            fin_cases hp <;> norm_num
          · intro _
            rw [hl]
            norm_num [List.chain'_cons]
        · have hl : progressValues q now ⟨some raw, true, fout, hout⟩ =
              ([5,10,15,20,25,55,100] : List ℚ) := by
            norm_num [progressValues, stream_travel_plan, ho, h, allComponents, flightsOnlyComponents, hotelsOnlyComponents, attractionsOnlyComponents, itineraryAttractionsComponents, itineraryOnlyComponents, budgetOnlyComponents, baseComponents, progress_per_component, total_components, List.countP_cons, List.countP_nil, List.filterMap_cons, List.filterMap_nil]
          refine ⟨?_, ?_⟩
          · intro p hp
            rw [hl] at hp
            fin_cases hp <;> norm_num
          · intro hfe
            simp at hfe
      · cases fexc
        · have hl : progressValues q now ⟨some raw, false, fout, hout⟩ =
              ([5,10,15,20,25,(130:ℚ)/3,(145:ℚ)/3,(200:ℚ)/3,100] : List ℚ) := by
            norm_num [progressValues, stream_travel_plan, ho, h, allComponents, flightsOnlyComponents, hotelsOnlyComponents, attractionsOnlyComponents, itineraryAttractionsComponents, itineraryOnlyComponents, budgetOnlyComponents, baseComponents, progress_per_component, total_components, List.countP_cons, List.countP_nil, List.filterMap_cons, List.filterMap_nil]
          refine ⟨?_, ?_⟩
          · intro p hp
            rw [hl] at hp
            fin_cases hp <;> norm_num
          · intro _
            rw [hl]
            norm_num [List.chain'_cons]
        · have hl : progressValues q now ⟨some raw, true, fout, hout⟩ =
              ([5,10,15,20,25,(130:ℚ)/3,(145:ℚ)/3,(200:ℚ)/3,100] : List ℚ) := by
            norm_num [progressValues, stream_travel_plan, ho, h, allComponents, flightsOnlyComponents, hotelsOnlyComponents, attractionsOnlyComponents, itineraryAttractionsComponents, itineraryOnlyComponents, budgetOnlyComponents, baseComponents, progress_per_component, total_components, List.countP_cons, List.countP_nil, List.filterMap_cons, List.filterMap_nil]
          refine ⟨?_, ?_⟩
          · intro p hp
            rw [hl] at hp
            fin_cases hp <;> norm_num
          · intro hfe
            simp at hfe
      · cases fexc
        · have hl : progressValues q now ⟨some raw, false, fout, hout⟩ =
              ([5,10,15,20,25,55,100] : List ℚ) := by
            norm_num [progressValues, stream_travel_plan, ho, h, allComponents, flightsOnlyComponents, hotelsOnlyComponents, attractionsOnlyComponents, itineraryAttractionsComponents, itineraryOnlyComponents, budgetOnlyComponents, baseComponents, progress_per_component, total_components, List.countP_cons, List.countP_nil, List.filterMap_cons, List.filterMap_nil]
          refine ⟨?_, ?_⟩
          · intro p hp
            rw [hl] at hp
            fin_cases hp <;> norm_num
          · intro _
            rw [hl]
            norm_num [List.chain'_cons]
        · have hl : progressValues q now ⟨some raw, true, fout, hout⟩ =
              ([5,10,15,20,25,55,100] : List ℚ) := by
            norm_num [progressValues, stream_travel_plan, ho, h, allComponents, flightsOnlyComponents, hotelsOnlyComponents, attractionsOnlyComponents, itineraryAttractionsComponents, itineraryOnlyComponents, budgetOnlyComponents, baseComponents, progress_per_component, total_components, List.countP_cons, List.countP_nil, List.filterMap_cons, List.filterMap_nil]
          refine ⟨?_, ?_⟩
          · intro p hp
            rw [hl] at hp
            fin_cases hp <;> norm_num
          · intro hfe
            simp at hfe
      · cases fexc
        · have hl : progressValues q now ⟨some raw, false, fout, hout⟩ =
              ([5,10,15,20,25,55,100] : List ℚ) := by
            norm_num [progressValues, stream_travel_plan, ho, h, allComponents, flightsOnlyComponents, hotelsOnlyComponents, attractionsOnlyComponents, itineraryAttractionsComponents, itineraryOnlyComponents, budgetOnlyComponents, baseComponents, progress_per_component, total_components, List.countP_cons, List.countP_nil, List.filterMap_cons, List.filterMap_nil]
          refine ⟨?_, ?_⟩
          · intro p hp
            rw [hl] at hp
            fin_cases hp <;> norm_num
          · intro _
            rw [hl]
            norm_num [List.chain'_cons]
        · have hl : progressValues q now ⟨some raw, true, fout, hout⟩ =
              ([5,10,15,20,25,55,100] : List ℚ) := by
            norm_num [progressValues, stream_travel_plan, ho, h, allComponents, flightsOnlyComponents, hotelsOnlyComponents, attractionsOnlyComponents, itineraryAttractionsComponents, itineraryOnlyComponents, budgetOnlyComponents, baseComponents, progress_per_component, total_components, List.countP_cons, List.countP_nil, List.filterMap_cons, List.filterMap_nil]
          refine ⟨?_, ?_⟩
          · intro p hp
            rw [hl] at hp
            fin_cases hp <;> norm_num
          · intro hfe
            simp at hfe


/-- C1 witness: the flights-only run with a healthy flight stage has
monotonically non-decreasing progress. -/
theorem c1_progress_bounds_witness :
    List.Chain' (· ≤ ·) (progressValues "flight" exNow envOK) :=
  (c1_progress_bounds "flight" exNow envOK).2 rfl

/-- C9 counterexample: in the complete-trip run whose flight search
returned the empty result dict, the run does end with a `complete` event,
but the budget payload's flights figure is 0 — not the 30000 round-trip
default and not the 15000 per-leg constant — because the two-key empty
dict is truthy and skips the `else` fallback branch. -/
theorem c9_counterexample :
    ((stream_travel_plan "trip" exNow envOK).map Event.ty).getLast? =
      some .complete ∧
    budgetEventData (stream_travel_plan "trip" exNow envOK) =
      some ⟨0, 9000, 14000, 2000, 25000, 25000⟩ ∧
    (0 : ℚ) ≠ 30000 ∧ (0 : ℚ) ≠ 15000 := by
  have hc : (detect_intent "trip").components = allComponents := by decide
  have ho : originMissing (parse_travel_query_async exNow exRaw).origin =
      false := by decide
  have hb : calculate_budget_body (parse_travel_query_async exNow exRaw)
      (some (⟨[], []⟩ : FlightResults)) (some ([] : List PriceRec)) =
      .ok ⟨0, 9000, 14000, 2000, 25000, 25000⟩ := by
    norm_num [calculate_budget_body, parse_travel_query_async,
      calculate_days, dtLt, dtLe, dtAddDays, exRaw, exNow, floatOfPrice,
      convertPrices, String.reduceEq]
    simp only [String.reduceEq, reduceIte]
    norm_num
  refine ⟨?_, ?_, by norm_num, by norm_num⟩
  · simp [stream_travel_plan, envOK, ho, hc, allComponents, List.getLast?]
  · simp [budgetEventData, stream_travel_plan, envOK, ho, hc,
      allComponents, calculate_budget_async, hb, List.find?]

/-- C9 amended: for every run whose flights and budget stages are
requested, whose flight stage does not raise, and whose flight search
returned the empty result dict, the run still ends with a `complete`
event and the emitted budget payload carries a flights figure of 0 (the
30000 default is used only when the flights component was not requested
at all). -/
theorem c9_flight_failure_run (q : String) (now : DT) (env : RunEnv)
    (raw : RawParse) (b : BudgetOut)
    (hp : env.parseResult = some raw)
    (ho : originMissing (parse_travel_query_async now raw).origin = false)
    (hf : (detect_intent q).components.flights = true)
    (hbud : (detect_intent q).components.budget = true)
    (hexc : env.flightExc = false)
    (hfout : env.flightOut = ⟨[], []⟩)
    (hok : calculate_budget_body (parse_travel_query_async now raw)
      (some env.flightOut) (some env.hotelOut) = .ok b) :
    ((stream_travel_plan q now env).map Event.ty).getLast? =
      some .complete ∧
    budgetEventData (stream_travel_plan q now env) = some b ∧
    b.flights = 0 := by
  have hcomp : (detect_intent q).components = allComponents := by
    have hcc := detect_intent_components_cases q
    simp only [componentChoices, List.mem_cons, List.not_mem_nil,
      or_false] at hcc
    rcases hcc with h | h | h | h | h | h | h <;>
      first
        | exact h
        | (rw [h] at hf hbud
           simp [flightsOnlyComponents, hotelsOnlyComponents,
             attractionsOnlyComponents, itineraryAttractionsComponents,
             itineraryOnlyComponents, budgetOnlyComponents,
             baseComponents] at hf hbud)
  have hflights : b.flights = 0 := by
    rw [hfout] at hok
    unfold calculate_budget_body at hok
    simp only [] at hok
    split at hok
    case _ fc hc hq1 hq2 =>
      rw [Except.ok.injEq] at hq1
      split at hok
      · simp at hok
      · rw [Except.ok.injEq] at hok
        subst hok
        simp only []
        rw [← hq1]
        norm_num
    case _ => simp at hok
  refine ⟨?_, ?_, hflights⟩
  · simp [stream_travel_plan, hp, ho, hcomp, hexc, allComponents,
      List.getLast?]
  · simp [budgetEventData, stream_travel_plan, hp, ho, hcomp, hexc,
      allComponents, hok, calculate_budget_async, List.find?]


/-- C9 witness: the complete-trip run with a failed flight search and a
successful hotel search ends in `complete` with budget flights figure
0. -/
theorem c9_flight_failure_run_witness :
    ((stream_travel_plan "trip" exNow envHotels).map Event.ty).getLast? =
      some .complete ∧
    budgetEventData (stream_travel_plan "trip" exNow envHotels) =
      some c9exBudget ∧
    c9exBudget.flights = 0 :=
  c9_flight_failure_run "trip" exNow envHotels exRaw c9exBudget rfl
    (by decide) (by decide) (by decide) rfl rfl
    (by
      norm_num [calculate_budget_body, parse_travel_query_async,
        calculate_days, dtLt, dtLe, dtAddDays, exRaw, exNow, envHotels,
        floatOfPrice, convertPrices, c9exBudget, minOrZero]
      simp only [String.reduceEq, reduceIte]
      norm_num)

end TravelCore
